import Mathlib

/-!
Verification of the logseq-mcp-server repository: a shallow embedding of the
LogSeq HTTP API client (`src/unnamed/part_000`, class `LogSeq`) and of the two
MCP tool handlers `create_page` and `list_pages` (`src/unnamed/part_001`),
together with proofs about the embedded code.

JavaScript values flowing through the handlers are modelled by the inductive
type `JValue` (JSON-shaped data; a missing object field is modelled as
`JValue.null`, which is behaviourally indistinguishable from `undefined` in
every place the code touches it: truthiness tests, `Array.isArray`, and
`typeof ... === "object"` guarded by truthiness). The network boundary is
modelled explicitly: the client produces an `HttpPost` request value, and each
handler takes the outcome of its single upstream call as an
`Except String JValue` argument (error message or deserialized body).
-/

/-- JSON-shaped JavaScript value (objects keep field insertion order). -/
inductive JValue where
  | null : JValue
  | bool : Bool → JValue
  | num : Int → JValue
  | str : String → JValue
  | arr : List JValue → JValue
  | obj : List (String × JValue) → JValue

namespace JValue

/-- JavaScript truthiness of a value (`if (v)`), restricted to JSON shapes. -/
def jsTruthy : JValue → Bool
  | .null => false
  | .bool b => b
  | .num n => n != 0
  | .str s => s != ""
  | .arr _ => true
  | .obj _ => true

/-- JavaScript `typeof v === "object"`: true for `null`, arrays and objects. -/
def jsTypeofObject : JValue → Bool
  | .null => true
  | .arr _ => true
  | .obj _ => true
  | _ => false

/-- Property read `v[k]`: a lookup in an object, `undefined` (here: `null`)
on a missing field or on a non-object receiver such as an array. -/
def getFieldD (v : JValue) (k : String) : JValue :=
  match v with
  | .obj fs => ((fs.lookup k).getD .null)
  | _ => .null

/-- JavaScript `Array.isArray(v)`. -/
def isArrB : JValue → Bool
  | .arr _ => true
  | _ => false

end JValue

/-- String conversion of one element inside `Array.prototype.join`
(`null`/`undefined` become the empty string, other values are stringified). -/
def jsElemStr : JValue → String
  | .null => ""
  | .bool b => if b then "true" else "false"
  | .num n => toString n
  | .str s => s
  | .arr xs => String.intercalate "," (xs.attach.map (fun x => jsElemStr x.1))
  | .obj _ => "[object Object]"
decreasing_by
  have := List.sizeOf_lt_of_mem x.2
  simp_wf
  omega

/-- JavaScript `String(v)` / template-literal interpolation `${v}`,
restricted to JSON shapes (`null` prints as "null", an array joins its
elements with commas, an object prints as "[object Object]"). -/
def jsToString : JValue → String
  | .null => "null"
  | .bool b => if b then "true" else "false"
  | .num n => toString n
  | .str s => s
  | .arr xs => String.intercalate "," (xs.map jsElemStr)
  | .obj _ => "[object Object]"

/-- JavaScript `Object.entries(v)` for the object-typed values the handler can
feed it: an object yields its fields, an array yields index/element pairs. -/
def jsEntries : JValue → List (String × JValue)
  | .obj fs => fs
  | .arr xs => xs.enum.map (fun p => (toString p.1, p.2))
  | _ => []

/-- Uniform result shape a tool handler returns to the transport:
an error flag and the single text payload. -/
structure ToolResult where
  isError : Bool
  text : String
deriving Repr, DecidableEq

/-- One outbound HTTP POST request, as constructed by the API client. -/
structure HttpPost where
  url : String
  payload : JValue
  headers : List (String × String)
  timeout : Nat

/-- The LogSeq API client configuration (`class LogSeq`, part_000). -/
structure LogSeq where
  apiKey : String
  host : String := "127.0.0.1"
  port : Nat := 12315

namespace LogSeq

/-- Method `getBaseUrl` of the client. -/
def getBaseUrl (c : LogSeq) : String :=
  "http://" ++ c.host ++ ":" ++ toString c.port ++ "/api"

/-- Method `getHeaders` of the client. -/
def getHeaders (c : LogSeq) : List (String × String) :=
  [("Authorization", "Bearer " ++ c.apiKey), ("Content-Type", "application/json")]

/-- The single request `createPage(title, content)` posts (part_000, lines
47-73): envelope `{method: "logseq.Editor.insertBlock", args: [title,
content, {isPageBlock: true}]}`, bearer/JSON headers, 6000 ms timeout. -/
def createPageRequest (c : LogSeq) (title content : String) : HttpPost :=
  { url := c.getBaseUrl
    payload := .obj
      [("method", .str "logseq.Editor.insertBlock"),
       ("args", .arr [.str title, .str content, .obj [("isPageBlock", .bool true)]])]
    headers := c.getHeaders
    timeout := 6000 }

/-- The complete list of outbound calls one `createPage` invocation makes:
the body issues exactly one `axios.post` and returns or rethrows. -/
def createPageCalls (c : LogSeq) (title content : String) : List HttpPost :=
  [c.createPageRequest title content]

end LogSeq

/-- Zod schema of the `create_page` tool (part_001, lines 44-53): title
length in [1, 1000], content length in [1, 1000000]; returns the message of
the first violated bound, or `none` when the input is valid.
Modelled from the spec: the schema itself is in src/, but its enforcement
lives in the MCP SDK dispatch layer (not part of this repository's src/),
which the spec describes as reporting a validation failure as a structured
tool error rather than a crash. -/
def validateCreatePage (title content : String) : Option String :=
  if title.length < 1 then some "Title cannot be empty"
  else if title.length > 1000 then some "Title is too long"
  else if content.length < 1 then some "Content cannot be empty"
  else if content.length > 1000000 then some "Content is too long"
  else none

/-- The `create_page` tool (part_001, lines 44-79). `clientResult` is the
outcome of the one `logseqClient.createPage` call; the returned Bool records
whether that outbound call was made at all (validation failures return a
structured error before it). -/
def create_page (title content : String) (clientResult : Except String JValue) :
    ToolResult × Bool :=
  match validateCreatePage title content with
  | some msg => (⟨true, msg⟩, false)
  | none =>
    match clientResult with
    | .ok _ => (⟨false, "Successfully created page \x27" ++ title ++ "\x27"⟩, true)
    | .error emsg => (⟨true, "Failed to create page: " ++ emsg⟩, true)

/-- Loop guard `!page || typeof page !== 'object'` of the `list_pages`
handler (part_001, lines 107-112): true exactly for `null` and the scalar
shapes, false for arrays and objects (in JavaScript an array has
`typeof === "object"` and is truthy). -/
def isInvalidPageObject : JValue → Bool
  | .null => true
  | .bool _ => true
  | .num _ => true
  | .str _ => true
  | .arr _ => false
  | .obj _ => false

/-- Journal flag of a page: `page['journal?'] || false` (part_001 line 114;
identically src/server.js lines 178-179), i.e. the truthiness of the field. -/
def isJournalPage (page : JValue) : Bool :=
  (page.getFieldD "journal?").jsTruthy

/-- Display-name resolution `page.originalName || page.name || '<unknown>'`
(part_001 line 121), stringified as the template literal does. -/
def resolveName (page : JValue) : String :=
  let o := page.getFieldD "originalName"
  if o.jsTruthy then jsToString o
  else
    let n := page.getFieldD "name"
    if n.jsTruthy then jsToString n else "<unknown>"

/-- Tags resolution `Array.isArray(page.tags) ? page.tags : []`
(part_001 line 122). -/
def resolveTags (page : JValue) : List JValue :=
  match page.getFieldD "tags" with
  | .arr xs => xs
  | _ => []

/-- Properties resolution
`page.properties && typeof page.properties === 'object' ? page.properties : {}`
(part_001 line 123): kept as-is when truthy and object-typed (which includes
arrays), otherwise replaced by the empty object. -/
def resolveProperties (page : JValue) : JValue :=
  let p := page.getFieldD "properties"
  if p.jsTruthy && p.jsTypeofObject then p else .obj []

/-- The one-line description composed for a displayed page (part_001, lines
126-145): `- <name>`, then `📅` for a journal page, then the joined tags
behind `🏷️`, then the flattened properties behind `📝`, joined by spaces. -/
def composeLine (page : JValue) : String :=
  let tags := resolveTags page
  let props := jsEntries (resolveProperties page)
  let parts : List String :=
    ["- " ++ resolveName page]
    ++ (if isJournalPage page then ["📅"] else [])
    ++ (if tags.length > 0 then
          ["🏷️ " ++ String.intercalate ", " (tags.map jsElemStr)] else [])
    ++ (if props.length > 0 then
          ["📝 " ++ String.intercalate ", "
             (props.map (fun kv => kv.1 ++ ": " ++ jsToString kv.2))] else [])
  String.intercalate " " parts

/-- Mutable state of the `for (const page of result)` loop in `list_pages`:
the collected display lines, the two counters, and the invalid elements the
handler logged and skipped. -/
structure ListState where
  pagesInfo : List String
  totalPages : Nat
  journalPages : Nat
  logged : List JValue

/-- Loop state before the first iteration. -/
def initState : ListState := ⟨[], 0, 0, []⟩

/-- One iteration of the `list_pages` loop (part_001, lines 107-148). -/
def processPage (include_journals : Bool) (st : ListState) (page : JValue) :
    ListState :=
  if isInvalidPageObject page then
    { st with logged := st.logged ++ [page] }
  else if isJournalPage page && !include_journals then
    { st with journalPages := st.journalPages + 1 }
  else
    { st with pagesInfo := st.pagesInfo ++ [composeLine page],
              totalPages := st.totalPages + 1 }

/-- Loop state after processing the whole upstream array. -/
def finalState (include_journals : Bool) (pages : List JValue) : ListState :=
  pages.foldl (processPage include_journals) initState

/-- Lexicographic comparison of character lists: the order JavaScript's
default `Array.prototype.sort` comparator applies to strings. -/
def charListLe : List Char → List Char → Bool
  | [], _ => true
  | _ :: _, [] => false
  | a :: as, b :: bs =>
    if a < b then true
    else if b < a then false
    else charListLe as bs

/-- String comparison used to model `pagesInfo.sort()`. -/
def jsStrLe (a b : String) : Bool :=
  charListLe a.toList b.toList

/-- The displayed lines after `pagesInfo.sort()` (part_001 line 149):
JavaScript's default sort is a stable comparison sort of the composed line
strings themselves; on strings any stable sort yields the same list, so it
is modelled by insertion sort over `jsStrLe`. -/
def sortedPagesInfo (include_journals : Bool) (pages : List JValue) :
    List String :=
  List.insertionSort (fun a b => jsStrLe a b = true)
    (finalState include_journals pages).pagesInfo

/-- The `summary` array the handler joins with newlines (part_001, lines
152-162): header, blank line, sorted page lines, blank line, statistics. -/
def summaryLines (include_journals : Bool) (pages : List JValue) :
    List String :=
  let st := finalState include_journals pages
  ["LogSeq Pages:", ""]
  ++ sortedPagesInfo include_journals pages
  ++ ["", "📊 Statistics:",
      "- Total pages shown: " ++ toString st.totalPages,
      if include_journals then
        "- Journal pages: " ++ toString st.journalPages
      else
        "- Journal pages: " ++ toString st.journalPages ++ " (hidden)"]

/-- The `list_pages` tool (part_001, lines 82-185). `result` is the outcome
of the one `logseqClient.listPages()` call. A non-array body raises
`Invalid response from LogSeq API: Expected an array of pages`, which the
surrounding catch turns into the same structured error shape as a failed
upstream call. -/
def list_pages (include_journals : Bool) (result : Except String JValue) :
    ToolResult :=
  match result with
  | .error msg => ⟨true, "Failed to list pages: " ++ msg⟩
  | .ok v =>
    match v with
    | .arr pages =>
        ⟨false, String.intercalate "\n" (summaryLines include_journals pages)⟩
    | _ => ⟨true,
        "Failed to list pages: Invalid response from LogSeq API: Expected an array of pages"⟩

/-- Predicate written from the spec's words (section 4.3 step 1 and the
RemotePage data model): a "structured record" is a key-value mapping. Used
to compare the spec's skip rule with the handler's actual guard. -/
def specStructuredRecord : JValue → Bool
  | .obj _ => true
  | _ => false

/-- Substring matching at the head: `charsMatchAt pat s` holds when `pat`
is an initial segment of `s`. -/
def charsMatchAt : List Char → List Char → Bool
  | [], _ => true
  | _ :: _, [] => false
  | a :: as, b :: bs => a == b && charsMatchAt as bs

/-- Substring search over character lists. -/
def strContainsChars (pat : List Char) : List Char → Bool
  | [] => charsMatchAt pat []
  | c :: t => charsMatchAt pat (c :: t) || strContainsChars pat t

/-- `strContains s pat` holds when `pat` occurs as a contiguous substring
of `s`. -/
def strContains (s pat : String) : Bool :=
  strContainsChars pat.toList s.toList

/-- Journal-counter effect of a single page whose `journal?` field is `v`,
when journals are hidden: what the hidden-journal counter reads after
`list_pages` processes just that page. -/
def journalCountOf (v : JValue) : Nat :=
  (finalState false [JValue.obj [("journal?", v)]]).journalPages

/-- Three sample upstream pages, the middle one a journal page. -/
def samplePages : List JValue :=
  [.obj [("name", .str "Alpha")],
   .obj [("name", .str "Beta"), ("journal?", .bool true)],
   .obj [("name", .str "Gamma")]]

/-- Decidability of the sorting relation. -/
instance : DecidableRel (fun a b : String => jsStrLe a b = true) :=
  fun _ _ => instDecidableEqBool _ _

/-- Cons-level characterisation of `charListLe`. -/
theorem charListLe_cons {a b : Char} {as bs : List Char} :
    charListLe (a :: as) (b :: bs) = true ↔
      a < b ∨ (a = b ∧ charListLe as bs = true) := by
  by_cases hab : a < b
  · simp [charListLe, hab]
  · by_cases hba : b < a
    · have hne : a ≠ b := fun h => absurd (h ▸ hba) (lt_irrefl a)
      simp [charListLe, hab, hba, hne]
    · have heq : a = b := le_antisymm (not_lt.mp hba) (not_lt.mp hab)
      simp [charListLe, hab, hba, heq]

/-- Totality of the comparator. -/
theorem charListLe_total :
    ∀ as bs : List Char, charListLe as bs = true ∨ charListLe bs as = true := by
  intro as
  induction as with
  | nil => intro bs; left; rfl
  | cons a as ih =>
    intro bs
    cases bs with
    | nil => right; rfl
    | cons b bs =>
      rcases lt_trichotomy a b with h | h | h
      · left; exact charListLe_cons.mpr (Or.inl h)
      · rcases ih bs with hrec | hrec
        · left; exact charListLe_cons.mpr (Or.inr ⟨h, hrec⟩)
        · right; exact charListLe_cons.mpr (Or.inr ⟨h.symm, hrec⟩)
      · right; exact charListLe_cons.mpr (Or.inl h)

/-- Transitivity of the comparator. -/
theorem charListLe_trans :
    ∀ as bs cs : List Char, charListLe as bs = true → charListLe bs cs = true →
      charListLe as cs = true := by
  intro as
  induction as with
  | nil => intro bs cs _ _; rfl
  | cons a as ih =>
    intro bs cs h1 h2
    cases bs with
    | nil => exact absurd h1 (by simp [charListLe])
    | cons b bs =>
      cases cs with
      | nil => exact absurd h2 (by simp [charListLe])
      | cons c cs =>
        rcases charListLe_cons.mp h1 with hab | ⟨hab, hrec1⟩ <;>
          rcases charListLe_cons.mp h2 with hbc | ⟨hbc, hrec2⟩
        · exact charListLe_cons.mpr (Or.inl (lt_trans hab hbc))
        · exact charListLe_cons.mpr (Or.inl (hbc ▸ hab))
        · exact charListLe_cons.mpr (Or.inl (hab ▸ hbc))
        · exact charListLe_cons.mpr (Or.inr ⟨hab.trans hbc, ih bs cs hrec1 hrec2⟩)

instance : IsTotal String (fun a b => jsStrLe a b = true) :=
  ⟨fun a b => charListLe_total a.toList b.toList⟩

instance : IsTrans String (fun a b => jsStrLe a b = true) :=
  ⟨fun a b c => charListLe_trans a.toList b.toList c.toList⟩

/-- A page element is displayed by the loop exactly when it passes the
object guard and is not a hidden journal page. -/
def shownPage (include_journals : Bool) (p : JValue) : Bool :=
  !isInvalidPageObject p && !(isJournalPage p && !include_journals)

/-- A page element increments the journal counter exactly when it passes
the object guard and is a journal page while journals are hidden. -/
def hiddenJournal (include_journals : Bool) (p : JValue) : Bool :=
  !isInvalidPageObject p && (isJournalPage p && !include_journals)

/-- Closed form of the `list_pages` loop: display lines, both counters and
the logged invalid elements, for an arbitrary starting state. -/
theorem foldl_processPage (inc : Bool) (ps : List JValue) (st : ListState) :
    ps.foldl (processPage inc) st =
      ⟨st.pagesInfo ++ (ps.filter (shownPage inc)).map composeLine,
       st.totalPages + (ps.filter (shownPage inc)).length,
       st.journalPages + (ps.filter (hiddenJournal inc)).length,
       st.logged ++ ps.filter isInvalidPageObject⟩ := by
  induction ps generalizing st with
  | nil => simp
  | cons p ps ih =>
    rw [List.foldl_cons, ih]
    rcases st with ⟨pi, tp, jp, lg⟩
    by_cases hInv : isInvalidPageObject p = true <;>
      by_cases hJ : (isJournalPage p && !inc) = true <;>
      simp [processPage, shownPage, hiddenJournal, hInv, hJ, List.filter_cons,
        Nat.add_assoc, Nat.add_comm, Nat.add_left_comm]

/-- Closed form of the loop state for the handler's initial state. -/
theorem finalState_eq (inc : Bool) (ps : List JValue) :
    finalState inc ps =
      ⟨(ps.filter (shownPage inc)).map composeLine,
       (ps.filter (shownPage inc)).length,
       (ps.filter (hiddenJournal inc)).length,
       ps.filter isInvalidPageObject⟩ := by
  simpa [initState] using foldl_processPage inc ps initState

/-- A structured record in the spec's sense passes the handler's guard. -/
theorem specStructuredRecord_valid {p : JValue}
    (h : specStructuredRecord p = true) : isInvalidPageObject p = false := by
  cases p <;> simp_all [specStructuredRecord, isInvalidPageObject]

/-- C3: any create_page input violating a length bound yields a structured
error result and no outbound call is made. -/
theorem c3_create_page_validation (title content : String)
    (clientResult : Except String JValue)
    (h : title.length = 0 ∨ title.length > 1000 ∨
         content.length = 0 ∨ content.length > 1000000) :
    (create_page title content clientResult).1.isError = true ∧
    (create_page title content clientResult).2 = false := by
  have hv : (validateCreatePage title content).isSome = true := by
    unfold validateCreatePage
    split_ifs <;> simp_all
  obtain ⟨m, hm⟩ := Option.isSome_iff_exists.mp hv
  simp [create_page, hm]

/-- Witness for C3 at the empty title. -/
theorem c3_create_page_validation_witness :
    (create_page "" "x" (.ok .null)).1.isError = true ∧
    (create_page "" "x" (.ok .null)).2 = false :=
  c3_create_page_validation "" "x" (.ok .null) (Or.inl (by decide))

/-- C4: on schema-valid input, an upstream success yields the non-error
success text with the title interpolated, and an upstream failure yields the
error text carrying the underlying message. -/
theorem c4_create_page_results (title content : String)
    (hvalid : validateCreatePage title content = none) :
    (∀ v : JValue, create_page title content (.ok v) =
      (⟨false, "Successfully created page \x27" ++ title ++ "\x27"⟩, true)) ∧
    (∀ msg : String, create_page title content (.error msg) =
      (⟨true, "Failed to create page: " ++ msg⟩, true)) := by
  constructor <;> intro x <;> simp [create_page, hvalid]

/-- Witness for C4 at a concrete valid input. -/
theorem c4_create_page_results_witness :
    create_page "T" "C" (.ok .null) =
      (⟨false, "Successfully created page \x27T\x27"⟩, true) ∧
    create_page "T" "C" (.error "boom") =
      (⟨true, "Failed to create page: boom"⟩, true) :=
  ⟨((c4_create_page_results "T" "C" (by decide)).1 .null).trans (by decide),
   ((c4_create_page_results "T" "C" (by decide)).2 "boom").trans (by decide)⟩

/-- C5 counterexample: the method name the client actually sends is the
namespaced "logseq.Editor.insertBlock", not the bare "insertBlock" the
claim states. -/
theorem c5_counterexample :
    jsToString
      ((LogSeq.createPageRequest ⟨"tok", "127.0.0.1", 12315⟩ "T" "C").payload.getFieldD
        "method") = "logseq.Editor.insertBlock" ∧
    "logseq.Editor.insertBlock" ≠ "insertBlock" :=
  ⟨rfl, by decide⟩

/-- C5 (amended): for every client and in-bounds title and content,
createPage issues exactly one outbound POST to http://host:port/api carrying
{method: "logseq.Editor.insertBlock", args: [title, content,
{isPageBlock: true}]}, bearer and JSON headers, and a 6000 ms timeout. -/
theorem c5_createPage_request (c : LogSeq) (title content : String)
    (hvalid : validateCreatePage title content = none) :
    (LogSeq.createPageCalls c title content).length = 1 ∧
    ∀ req ∈ LogSeq.createPageCalls c title content,
      req.url = "http://" ++ c.host ++ ":" ++ toString c.port ++ "/api" ∧
      req.payload.getFieldD "method" = .str "logseq.Editor.insertBlock" ∧
      req.payload.getFieldD "args" =
        .arr [.str title, .str content, .obj [("isPageBlock", .bool true)]] ∧
      req.headers.lookup "Authorization" = some ("Bearer " ++ c.apiKey) ∧
      req.headers.lookup "Content-Type" = some "application/json" ∧
      req.timeout = 6000 := by
  refine ⟨rfl, ?_⟩
  intro req hreq
  have : req = LogSeq.createPageRequest c title content := by
    simpa [LogSeq.createPageCalls] using hreq
  subst this
  refine ⟨rfl, ?_, ?_, ?_, ?_, rfl⟩ <;>
    simp [LogSeq.createPageRequest, LogSeq.getHeaders, JValue.getFieldD, List.lookup]

/-- Witness for C5 at a concrete client and input. -/
theorem c5_createPage_request_witness :
    (LogSeq.createPageCalls ⟨"tok", "127.0.0.1", 12315⟩ "T" "C").length = 1 ∧
    (LogSeq.createPageRequest ⟨"tok", "127.0.0.1", 12315⟩ "T" "C").timeout = 6000 :=
  ⟨(c5_createPage_request ⟨"tok", "127.0.0.1", 12315⟩ "T" "C" (by decide)).1,
   (((c5_createPage_request ⟨"tok", "127.0.0.1", 12315⟩ "T" "C" (by decide)).2
      (LogSeq.createPageRequest ⟨"tok", "127.0.0.1", 12315⟩ "T" "C")
      (by simp [LogSeq.createPageCalls])).2.2.2.2.2)⟩

/-- C6 counterexample: on a non-sequence upstream body the handler does
return a structured error, but its text does not contain the claimed phrase
"Invalid response: expected a sequence of pages". -/
theorem c6_counterexample :
    (list_pages false (.ok (.obj []))).isError = true ∧
    strContains (list_pages false (.ok (.obj []))).text
      "Invalid response: expected a sequence of pages" = false :=
  ⟨rfl, by decide⟩

/-- C6 (amended): for every non-sequence upstream body, list_pages returns a
structured error whose text contains
"Invalid response from LogSeq API: Expected an array of pages". -/
theorem c6_invalid_shape (include_journals : Bool) (v : JValue)
    (h : v.isArrB = false) :
    list_pages include_journals (.ok v) =
      ⟨true,
       "Failed to list pages: Invalid response from LogSeq API: Expected an array of pages"⟩ ∧
    strContains (list_pages include_journals (.ok v)).text
      "Invalid response from LogSeq API: Expected an array of pages" = true := by
  have h1 : list_pages include_journals (.ok v) =
      ⟨true,
       "Failed to list pages: Invalid response from LogSeq API: Expected an array of pages"⟩ := by
    cases v <;> simp_all [list_pages, JValue.isArrB]
  exact ⟨h1, by rw [h1]; decide⟩

/-- Witness for C6 at the null body. -/
theorem c6_invalid_shape_witness :
    list_pages false (.ok .null) =
      ⟨true,
       "Failed to list pages: Invalid response from LogSeq API: Expected an array of pages"⟩ :=
  (c6_invalid_shape false .null rfl).1

/-- C8 counterexample: a sequence-valued "properties" field is not defaulted
to the empty mapping — it survives resolution and is rendered as an
index-keyed mapping in the composed line. -/
theorem c8_counterexample :
    resolveProperties (.obj [("name", .str "P"), ("properties", .arr [.str "x"])]) =
      .arr [.str "x"] ∧
    (JValue.arr [.str "x"] ≠ JValue.obj []) ∧
    composeLine (.obj [("name", .str "P"), ("properties", .arr [.str "x"])]) =
      "- P 📝 0: x" :=
  ⟨rfl, by simp, rfl⟩

/-- C8 (amended): display-name resolution prefers a truthy originalName and
falls back to a truthy name, else "<unknown>"; tags default to the empty
sequence when absent or not a sequence; properties default to the empty
mapping when absent, null or scalar, while a sequence-valued properties
field is kept (and later rendered as an index-keyed mapping). -/
theorem c8_field_resolution :
    (∀ s t : String, s ≠ "" →
       resolveName (.obj [("originalName", .str s), ("name", .str t)]) = s) ∧
    (∀ t : String, t ≠ "" → resolveName (.obj [("name", .str t)]) = t) ∧
    resolveName (.obj []) = "<unknown>" ∧
    (∀ xs : List JValue, resolveTags (.obj [("tags", .arr xs)]) = xs) ∧
    resolveTags (.obj [("tags", .str "x")]) = [] ∧
    resolveTags (.obj []) = [] ∧
    (∀ fs : List (String × JValue),
       resolveProperties (.obj [("properties", .obj fs)]) = .obj fs) ∧
    resolveProperties (.obj [("properties", .str "x")]) = .obj [] ∧
    resolveProperties (.obj [("properties", .null)]) = .obj [] ∧
    resolveProperties (.obj []) = .obj [] ∧
    (∀ xs : List JValue, resolveProperties (.obj [("properties", .arr xs)]) = .arr xs) := by
  refine ⟨?_, ?_, rfl, ?_, rfl, rfl, ?_, rfl, rfl, rfl, ?_⟩
  · intro s t hs
    simp [resolveName, JValue.getFieldD, List.lookup, JValue.jsTruthy, jsToString, hs]
  · intro t ht
    simp [resolveName, JValue.getFieldD, List.lookup, JValue.jsTruthy, jsToString, ht]
  · intro xs
    simp [resolveTags, JValue.getFieldD, List.lookup]
  · intro fs
    simp [resolveProperties, JValue.getFieldD, List.lookup, JValue.jsTruthy,
      JValue.jsTypeofObject]
  · intro xs
    simp [resolveProperties, JValue.getFieldD, List.lookup, JValue.jsTruthy,
      JValue.jsTypeofObject]

/-- Witness for C8 at concrete field values. -/
theorem c8_field_resolution_witness :
    resolveName (.obj [("originalName", .str "N"), ("name", .str "M")]) = "N" ∧
    resolveName (.obj [("name", .str "M")]) = "M" ∧
    resolveTags (.obj [("tags", .arr [.str "t1"])]) = [.str "t1"] ∧
    resolveProperties (.obj [("properties", .obj [("k", .str "v")])]) =
      .obj [("k", .str "v")] ∧
    resolveProperties (.obj [("properties", .arr [.num 2])]) = .arr [.num 2] :=
  ⟨c8_field_resolution.1 "N" "M" (by decide),
   c8_field_resolution.2.1 "M" (by decide),
   c8_field_resolution.2.2.2.1 [.str "t1"],
   c8_field_resolution.2.2.2.2.2.2.1 [("k", .str "v")],
   c8_field_resolution.2.2.2.2.2.2.2.2.2.2 [.num 2]⟩

/-- C10: the loop classifies an element as a journal page exactly when its
"journal?" field is truthy; in particular the number 1 and a non-empty
string count as journal, while false, 0, the empty string, null and an
absent field do not. -/
theorem c10_journal_truthiness :
    (∀ v : JValue, journalCountOf v = if v.jsTruthy then 1 else 0) ∧
    (∀ n : Int, n ≠ 0 → journalCountOf (.num n) = 1) ∧
    (∀ s : String, s ≠ "" → journalCountOf (.str s) = 1) ∧
    journalCountOf (.bool false) = 0 ∧
    journalCountOf (.num 0) = 0 ∧
    journalCountOf (.str "") = 0 ∧
    journalCountOf .null = 0 ∧
    (finalState false [JValue.obj []]).journalPages = 0 := by
  have hbase : ∀ v : JValue, journalCountOf v = if v.jsTruthy then 1 else 0 := by
    intro v
    simp only [journalCountOf, finalState, initState, List.foldl_cons, List.foldl_nil,
      processPage, isInvalidPageObject, isJournalPage, JValue.getFieldD, List.lookup]
    cases h : v.jsTruthy <;> simp [h]
  refine ⟨hbase, ?_, ?_, by decide, by decide, by decide, by decide, by decide⟩
  · intro n hn
    rw [hbase]
    simp [JValue.jsTruthy, hn]
  · intro s hs
    rw [hbase]
    simp [JValue.jsTruthy, hs]

/-- Witness for C10 at truthy non-boolean field values. -/
theorem c10_journal_truthiness_witness :
    journalCountOf (.num 1) = 1 ∧ journalCountOf (.str "x") = 1 :=
  ⟨c10_journal_truthiness.2.1 1 (by decide),
   c10_journal_truthiness.2.2.1 "x" (by decide)⟩

/-- C1 counterexample: with includeJournals = true and one journal page
among three, all three pages are listed but the statistics report journal
count 0, not 1 — the counter is only incremented when a journal page is
hidden. -/
theorem c1_counterexample :
    sortedPagesInfo true samplePages = ["- Alpha", "- Beta 📅", "- Gamma"] ∧
    (finalState true samplePages).journalPages = 0 ∧
    (finalState true samplePages).journalPages ≠ 1 ∧
    (summaryLines true samplePages).getLast? = some "- Journal pages: 0" :=
  ⟨by decide, rfl, by decide, by decide⟩

/-- C1 (amended): with includeJournals = true on three record pages of which
exactly one has a truthy "journal?" field, all three pages appear in the
listing and the statistics report journal count 0 without the "(hidden)"
label. -/
theorem c1_list_pages_include_journals (ps : List JValue)
    (hlen : ps.length = 3)
    (hrec : ∀ p ∈ ps, specStructuredRecord p = true)
    (hj : (ps.filter (fun p => isJournalPage p)).length = 1) :
    (finalState true ps).journalPages = 0 ∧
    (finalState true ps).totalPages = 3 ∧
    List.Perm (sortedPagesInfo true ps) (ps.map composeLine) ∧
    summaryLines true ps =
      ["LogSeq Pages:", ""] ++ sortedPagesInfo true ps ++
        ["", "📊 Statistics:", "- Total pages shown: 3",
         "- Journal pages: 0"] ∧
    (list_pages true (.ok (.arr ps))).isError = false := by
  have hshown : ps.filter (shownPage true) = ps :=
    List.filter_eq_self.mpr (fun p hp => by
      simp [shownPage, specStructuredRecord_valid (hrec p hp)])
  have hhid : ps.filter (hiddenJournal true) = [] :=
    List.filter_eq_nil_iff.mpr (fun p hp => by simp [hiddenJournal])
  have hjp : (finalState true ps).journalPages = 0 := by
    rw [finalState_eq]; simp [hhid]
  have htp : (finalState true ps).totalPages = 3 := by
    rw [finalState_eq]; simp [hshown, hlen]
  have hperm : List.Perm (sortedPagesInfo true ps) (ps.map composeLine) := by
    rw [sortedPagesInfo, finalState_eq]
    simpa [hshown] using
      List.perm_insertionSort (fun a b => jsStrLe a b = true)
        ((ps.filter (shownPage true)).map composeLine)
  have e1 : "- Total pages shown: " ++ toString (3 : Nat) = "- Total pages shown: 3" := by
    decide
  have e2 : "- Journal pages: " ++ toString (0 : Nat) = "- Journal pages: 0" := by
    decide
  refine ⟨hjp, htp, hperm, ?_, rfl⟩
  simp [summaryLines, htp, hjp, e1, e2]

/-- Witness for C1 (amended) at the three sample pages. -/
theorem c1_list_pages_include_journals_witness :
    (finalState true samplePages).journalPages = 0 ∧
    (finalState true samplePages).totalPages = 3 :=
  ⟨(c1_list_pages_include_journals samplePages rfl (by decide) (by decide)).1,
   (c1_list_pages_include_journals samplePages rfl (by decide) (by decide)).2.1⟩

/-- C2: with includeJournals = false on three record pages of which exactly
one has a truthy "journal?" field, the journal page is excluded from the
listing (the displayed lines are exactly those of the two other pages), the
journal counter reads 1, the statistics report journal count 1 "(hidden)"
and shown count 2. -/
theorem c2_list_pages_exclude_journals (ps : List JValue)
    (hlen : ps.length = 3)
    (hrec : ∀ p ∈ ps, specStructuredRecord p = true)
    (hj : (ps.filter (fun p => isJournalPage p)).length = 1) :
    (finalState false ps).journalPages = 1 ∧
    (finalState false ps).totalPages = 2 ∧
    List.Perm (sortedPagesInfo false ps)
      ((ps.filter (fun p => !isJournalPage p)).map composeLine) ∧
    summaryLines false ps =
      ["LogSeq Pages:", ""] ++ sortedPagesInfo false ps ++
        ["", "📊 Statistics:", "- Total pages shown: 2",
         "- Journal pages: 1 (hidden)"] ∧
    (list_pages false (.ok (.arr ps))).isError = false := by
  have hshown : ps.filter (shownPage false) = ps.filter (fun p => !isJournalPage p) :=
    List.filter_congr (fun p hp => by
      simp [shownPage, specStructuredRecord_valid (hrec p hp)])
  have hhid : ps.filter (hiddenJournal false) = ps.filter (fun p => isJournalPage p) :=
    List.filter_congr (fun p hp => by
      simp [hiddenJournal, specStructuredRecord_valid (hrec p hp)])
  have hjp : (finalState false ps).journalPages = 1 := by
    rw [finalState_eq]; simpa [hhid] using hj
  have hlenshown : (ps.filter (fun p => !isJournalPage p)).length = 2 := by
    have := List.length_eq_length_filter_add (l := ps) (fun p => isJournalPage p)
    omega
  have htp : (finalState false ps).totalPages = 2 := by
    rw [finalState_eq]; simpa [hshown] using hlenshown
  have hperm : List.Perm (sortedPagesInfo false ps)
      ((ps.filter (fun p => !isJournalPage p)).map composeLine) := by
    rw [sortedPagesInfo, finalState_eq]
    simpa [hshown] using
      List.perm_insertionSort (fun a b => jsStrLe a b = true)
        ((ps.filter (shownPage false)).map composeLine)
  have e1 : "- Total pages shown: " ++ toString (2 : Nat) = "- Total pages shown: 2" := by
    decide
  have e2 : "- Journal pages: " ++ toString (1 : Nat) ++ " (hidden)" =
      "- Journal pages: 1 (hidden)" := by
    decide
  refine ⟨hjp, htp, hperm, ?_, rfl⟩
  simp [summaryLines, htp, hjp, e1, e2]

/-- Witness for C2 at the three sample pages. -/
theorem c2_list_pages_exclude_journals_witness :
    (finalState false samplePages).journalPages = 1 ∧
    (finalState false samplePages).totalPages = 2 :=
  ⟨(c2_list_pages_exclude_journals samplePages rfl (by decide) (by decide)).1,
   (c2_list_pages_exclude_journals samplePages rfl (by decide) (by decide)).2.1⟩

/-- Upstream result with a sequence element between two valid pages. -/
def arrayElementPages : List JValue :=
  [.obj [("name", .str "One")], .arr [], .obj [("name", .str "Two")]]

/-- C7 counterexample: an element that is itself a sequence is not a
structured record, yet the handler neither logs nor skips it — it is
displayed as "<unknown>" and counted, so the shown count is 3, not 2. -/
theorem c7_counterexample :
    specStructuredRecord (.arr []) = false ∧
    (finalState false arrayElementPages).totalPages = 3 ∧
    (finalState false arrayElementPages).logged = [] ∧
    sortedPagesInfo false arrayElementPages = ["- <unknown>", "- One", "- Two"] ∧
    (list_pages false (.ok (.arr arrayElementPages))).isError = false :=
  ⟨rfl, rfl, rfl, by decide, rfl⟩

/-- C7 (amended): an element that is null or a scalar among otherwise valid
non-journal record pages is logged and skipped, and the listing of the
remaining valid pages succeeds with shown count equal to their number. -/
theorem c7_skip_invalid_elements (bad p1 p2 : JValue)
    (hbad : isInvalidPageObject bad = true)
    (h1 : specStructuredRecord p1 = true) (h2 : specStructuredRecord p2 = true)
    (hj1 : isJournalPage p1 = false) (hj2 : isJournalPage p2 = false) :
    (finalState false [p1, bad, p2]).logged = [bad] ∧
    (finalState false [p1, bad, p2]).totalPages = 2 ∧
    (finalState false [p1, bad, p2]).pagesInfo = [composeLine p1, composeLine p2] ∧
    (list_pages false (.ok (.arr [p1, bad, p2]))).isError = false := by
  have i1 := specStructuredRecord_valid h1
  have i2 := specStructuredRecord_valid h2
  refine ⟨?_, ?_, ?_, rfl⟩ <;>
    simp [finalState_eq, List.filter_cons, shownPage, hiddenJournal, hbad, i1, i2,
      hj1, hj2]

/-- Witness for C7 (amended) with a null element between two named pages. -/
theorem c7_skip_invalid_elements_witness :
    (finalState false
      [JValue.obj [("name", .str "A")], .null, .obj [("name", .str "B")]]).logged =
      [JValue.null] ∧
    (finalState false
      [JValue.obj [("name", .str "A")], .null, .obj [("name", .str "B")]]).totalPages = 2 :=
  ⟨(c7_skip_invalid_elements .null (.obj [("name", .str "A")]) (.obj [("name", .str "B")])
      rfl rfl rfl (by decide) (by decide)).1,
   (c7_skip_invalid_elements .null (.obj [("name", .str "A")]) (.obj [("name", .str "B")])
      rfl rfl rfl (by decide) (by decide)).2.1⟩

/-- C9: the displayed lines are the composed line strings of the shown
pages, sorted lexicographically by the full composed line (including the
"- " prefix and markers); the concrete instance shows a journal marker
changing the order relative to bare page names ("b" sorts after "b x"). -/
theorem c9_lines_sorted_by_composed_line :
    (∀ (inc : Bool) (pages : List JValue),
       (sortedPagesInfo inc pages).Sorted (fun a b => jsStrLe a b = true)) ∧
    (∀ (inc : Bool) (pages : List JValue),
       List.Perm (sortedPagesInfo inc pages)
         ((pages.filter (shownPage inc)).map composeLine)) ∧
    sortedPagesInfo true
        [.obj [("name", .str "b"), ("journal?", .bool true)],
         .obj [("name", .str "b x")]] =
      ["- b x", "- b 📅"] := by
  refine ⟨?_, ?_, by decide⟩
  · intro inc pages
    exact List.sorted_insertionSort _ _
  · intro inc pages
    rw [sortedPagesInfo, finalState_eq]
    exact List.perm_insertionSort _ _
